import Mathlib

/-!
# Verification of the lavapond 2D renderer against its specification

This development shallowly embeds the parts of the lavapond renderer that the
specification talks about:

* the screen/world coordinate conversions of `src/coord_sys.rs`;
* the glyph table and the `text`/`shape` draw-pool builders of
  `src/resources.rs` and `src/lib.rs`;
* the frame lifecycle of `Renderer::draw_request` and
  `Renderer::recreate_swapchain` of `src/lib.rs`, with the Vulkan API calls
  modelled as an outcome oracle (each fallible call either succeeds, possibly
  returning data such as an acquired image index, or fails);
* the `.obj` loader `load_obj_files` of `src/resources.rs`, over
  already-lexed lines (the spec treats file parsing as an external
  collaborator producing these records).

`f32` arithmetic is modelled by exact rational arithmetic (`ℚ`).
Fallible operations return `Except String` mirroring `anyhow::Result`;
operations that can only fail by panicking (out-of-bounds indexing) return
`Option`, with `none` standing for the panic.
-/

set_option autoImplicit false
set_option maxRecDepth 10000

namespace Lavapond

/-! ## Coordinate system (`src/coord_sys.rs`) -/

/-- `fn world(width, height) -> (Right, Top)` from `src/coord_sys.rs:169`:
the world-space extents of the right and top screen edges. -/
def world (width height : ℚ) : ℚ × ℚ :=
  if width > height then (width / height, 1) else (1, height / width)

/-- `WorldPos2D::convert` (`src/coord_sys.rs:137`): screen position to world
position for a window of size `w × h`. -/
def WorldPos2D.convert (w h screenX screenY : ℚ) : ℚ × ℚ :=
  (-(world w h).1 + (screenX / w) * ((world w h).1 - -(world w h).1),
    (world w h).2 + (screenY / h) * (-(world w h).2 - (world w h).2))

/-- `WorldPos2D::from_xy` (`src/coord_sys.rs:115`). -/
def WorldPos2D.from_xy (w h screenX screenY : ℚ) : ℚ × ℚ :=
  WorldPos2D.convert w h screenX screenY

/-- `ScreenPos2D::convert` (`src/coord_sys.rs:57`): world position to screen
position for a window of size `w × h`. -/
def ScreenPos2D.convert (w h worldX worldY : ℚ) : ℚ × ℚ :=
  (((worldX - -(world w h).1) / ((world w h).1 - -(world w h).1)) * w,
    ((worldY - (world w h).2) / (-(world w h).2 - (world w h).2)) * h)

/-- `ScreenPos2D::from_world_pos` (`src/coord_sys.rs:50`). -/
def ScreenPos2D.from_world_pos (w h : ℚ) (worldPos : ℚ × ℚ) : ℚ × ℚ :=
  ScreenPos2D.convert w h worldPos.1 worldPos.2


/-! ## Draw instances (`src/lib.rs`, `src/shapes.rs`)

`utils::color::Color` is not present under the library's module tree (only
`utils/src/input.rs` and `utils/src/timer.rs` exist). Modelled from the spec:
an RGB color; the spec's data model lists "RGB(+A) color" and the code refers
to the named constants `Color::EMERALD` and `Color::BLACK`. -/

/-- Modelled from the spec: `utils::color::Color`, an RGB color value; the
named constants used by the renderer are kept abstract constructors, an
arbitrary color is `rgb r g b`. -/
inductive Color where
  | emerald : Color
  | black : Color
  | rgb (r g b : ℚ) : Color
deriving DecidableEq, Repr

/-- A 3-component `f32` vector (`glam::Vec3`), modelled over `ℚ`. -/
structure Vec3 where
  x : ℚ
  y : ℚ
  z : ℚ
deriving DecidableEq, Repr

/-- `AnchorType` (`src/lib.rs:1320`): `Locked` moves with the camera,
`Unlocked` does not. -/
inductive AnchorType where
  | locked : AnchorType
  | unlocked : AnchorType
deriving DecidableEq, Repr

/-- `ShapeType` (`src/shapes.rs`). -/
inductive ShapeType where
  | circle | circleBorder | rectangle | rectangleBorder
  | roundedRectangle | roundedRectangleBorder
deriving DecidableEq, Repr

/-- `ObjectInstance`, the draw-pool element type referenced by
`Renderer::text` / `Renderer::shape` (`src/lib.rs:789,836`). Its definition is
absent from the library's module tree; modelled from the spec's
**DrawInstance** data model ("position (3 floats), rotation (scalar degrees,
z-axis only), non-uniform scale (3 floats), RGB(+A) color, mesh reference")
and the field names used at the construction sites, with `Default` giving
rotation `0`. -/
structure ObjectInstance where
  position : Vec3
  rotation : ℚ
  scale : Vec3
  color : Color
  objectIndex : ℕ
deriving DecidableEq, Repr

/-- The fixed mesh indices of the built-in shapes
(`impl ObjectPool`, `src/resources.rs:16`). -/
def ObjectPool.CIRCLE : ℕ := 52
/-- `src/resources.rs:17`. -/
def ObjectPool.CIRCLE_BORDER : ℕ := 53
/-- `src/resources.rs:18`. -/
def ObjectPool.ROUNDED_RECTANGLE : ℕ := 54
/-- `src/resources.rs:19`. -/
def ObjectPool.RECTANGLE_BORDER : ℕ := 55
/-- `src/resources.rs:20`. -/
def ObjectPool.ROUNDED_RECTANGLE_BORDER : ℕ := 56
/-- `src/resources.rs:21`. -/
def ObjectPool.RECTANGLE : ℕ := 57

/-! ## Glyph table (`src/resources.rs:322`)

`CHAR_OBJECT_POOL: [u8; 255]` — note the declared length is 255, not 256.
Sentinels: 255 = nothing, 254 = space, 253 = new line, 0 = blank glyph. -/

/-- `CHAR_OBJECT_POOL` (`src/resources.rs:323`), transcribed entry by entry. -/
def charObjectPool : List ℕ :=
  [ -- 0-9 unused special characters
   255, 255, 255, 255, 255, 255, 255, 255, 255, 255,
   -- 10 line feed
   253,
   -- 11-31 unused special characters
   255, 255, 255, 255, 255, 255, 255, 255, 255, 255,
   255, 255, 255, 255, 255, 255, 255, 255, 255, 255,
   255,
   -- 32-126 space, blank and normal characters
   254, 1, 2, 0, 0, 0, 0, 3, 4, 5,
   6, 7, 10, 9, 12, 11,
   16, 17, 18, 19, 20, 21, 22, 23, 24, 25,
   8, 0, 0, 13, 0, 14, 0,
   26, 27, 28, 29, 30, 31, 32, 33, 34, 35,
   36, 37, 38, 39, 40, 41, 42, 43, 44, 45,
   46, 47, 48, 49, 50, 51,
   4, 0, 5, 0, 15, 0,
   26, 27, 28, 29, 30, 31, 32, 33, 34, 35,
   36, 37, 38, 39, 40, 41, 42, 43, 44, 45,
   46, 47, 48, 49, 50, 51,
   4, 0, 5, 0,
   -- 127-254 empty char
   255, 255, 255, 255, 255, 255, 255, 255, 255, 255,
   255, 255, 255, 255, 255, 255, 255, 255, 255, 255,
   255, 255, 255, 255, 255, 255, 255, 255, 255, 255,
   255, 255, 255, 255, 255, 255, 255, 255, 255, 255,
   255, 255, 255, 255, 255, 255, 255, 255, 255, 255,
   255, 255, 255, 255, 255, 255, 255, 255, 255, 255,
   255, 255, 255, 255, 255, 255, 255, 255, 255, 255,
   255, 255, 255, 255, 255, 255, 255, 255, 255, 255,
   255, 255, 255, 255, 255, 255, 255, 255, 255, 255,
   255, 255, 255, 255, 255, 255, 255, 255, 255, 255,
   255, 255, 255, 255, 255, 255, 255, 255, 255, 255,
   255, 255, 255, 255, 255, 255, 255, 255, 255, 255,
   255, 255, 255, 255, 255, 255, 255, 255]

/-! ## `Renderer::text` (`src/lib.rs:748`) -/

/-- The per-byte cursor loop of `Renderer::text` (`src/lib.rs:772`).
`none` models the panic of the out-of-bounds table access
`CHAR_OBJECT_POOL[byte as usize]` for a byte `≥ 255`. -/
def textLoop (anchorX padX padY scale : ℚ) :
    List ℕ → Vec3 → Option (List ObjectInstance)
  | [], _ => some []
  | b :: rest, cursor =>
    match charObjectPool.get? b with
    | none => none
    | some charIndex =>
      -- there is no corresponding character object
      if charIndex = 255 then
        textLoop anchorX padX padY scale rest cursor
      -- move the cursor to the next line
      else if charIndex = 253 then
        textLoop anchorX padX padY scale rest
          ⟨anchorX, cursor.y - padY, cursor.z⟩
      else
        -- add the current char (unless it is the space sentinel 254),
        -- then move the cursor by one character to the right
        (textLoop anchorX padX padY scale rest
            ⟨cursor.x + padX, cursor.y, cursor.z⟩).map
          fun tail =>
            (if charIndex = 254 then [] else
              [{ position := cursor
                 rotation := 0
                 scale := ⟨scale, scale, 0⟩
                 color := Color.emerald
                 objectIndex := charIndex }]) ++ tail

/-- `Renderer::text` (`src/lib.rs:748`) as a pure function from the camera
position, the byte sequence of the input string, the scale, the top-left
world position and the anchor type to the produced draw instances.
`none` models the out-of-bounds panic. -/
def textModel (cameraPos : ℚ × ℚ) (bytes : List ℕ) (scale : ℚ)
    (topLeft : ℚ × ℚ) (anchorType : AnchorType) :
    Option (List ObjectInstance) :=
  let padX := scale * (3 / 100)
  let padY := scale * (5 / 100)
  let anchorPosition : Vec3 :=
    match anchorType with
    | .locked => ⟨topLeft.1 + cameraPos.1 + padX, topLeft.2 + cameraPos.2 - padY, 0⟩
    | .unlocked => ⟨topLeft.1 + padX, topLeft.2 - padY, 0⟩
  textLoop anchorPosition.x padX padY scale bytes anchorPosition

/-! ## UTF-8 byte sequences

`Renderer::text` iterates `text.bytes()`, the UTF-8 bytes of a Rust `&str`.
The encoding is the standard UTF-8 scheme. -/

/-- The UTF-8 encoding of a single Unicode scalar value. -/
def utf8EncodeChar (c : ℕ) : List ℕ :=
  if c < 128 then [c]
  else if c < 2048 then [192 + c / 64, 128 + c % 64]
  else if c < 65536 then [224 + c / 4096, 128 + (c / 64) % 64, 128 + c % 64]
  else [240 + c / 262144, 128 + (c / 4096) % 64, 128 + (c / 64) % 64, 128 + c % 64]

/-- The UTF-8 byte sequence of a string (Rust's `str::bytes`). -/
def utf8Bytes (s : String) : List ℕ :=
  (s.data.map fun c => utf8EncodeChar c.toNat).flatten

/-! ## `Renderer::shape` (`src/lib.rs:808`) -/

/-- The mesh index `Renderer::shape` resolves a `ShapeType` to
(`src/lib.rs:827`). -/
def shapeObjectIndex : ShapeType → ℕ
  | .circle => ObjectPool.CIRCLE
  | .circleBorder => ObjectPool.CIRCLE_BORDER
  | .rectangle => ObjectPool.RECTANGLE
  | .rectangleBorder => ObjectPool.RECTANGLE_BORDER
  | .roundedRectangle => ObjectPool.ROUNDED_RECTANGLE
  | .roundedRectangleBorder => ObjectPool.ROUNDED_RECTANGLE_BORDER

/-- The draw instance `Renderer::shape` appends (`src/lib.rs:818-842`), as a
function of the camera position. -/
def shapeInstance (cameraPos : ℚ × ℚ) (sizeX sizeY rotation : ℚ)
    (center : ℚ × ℚ) (color : Color) (shape : ShapeType)
    (anchorType : AnchorType) : ObjectInstance :=
  { position :=
      match anchorType with
      | .locked => ⟨center.1 + cameraPos.1, center.2 + cameraPos.2, 0⟩
      | .unlocked => ⟨center.1, center.2, 0⟩
    rotation := rotation
    scale := ⟨sizeX, sizeY, 0⟩
    color := color
    objectIndex := shapeObjectIndex shape }



/-! ## Render statistics (`src/lib.rs:1234`)

The wall-clock `Instant` fields are not state the spec talks about; the
elapsed durations they produce are supplied by the outcome oracle of
`draw_request` below. -/

/-- `RenderStats` (`src/lib.rs:1234`), without the `Instant` clock fields. -/
structure RenderStats where
  turnedOff : Bool
  framesPerSec : ℕ
  lastDrawRequestTime : ℕ
  lastDrawPoolCreationTime : ℕ
  lastDrawPoolElements : ℕ
  lastDrawPoolVertices : ℕ
  frameCounter : ℕ
deriving Repr

/-- `RenderStats::new` (`src/lib.rs:1249`). -/
def RenderStats.new : RenderStats :=
  { turnedOff := false, framesPerSec := 0, lastDrawRequestTime := 0,
    lastDrawPoolCreationTime := 0, lastDrawPoolElements := 0,
    lastDrawPoolVertices := 0, frameCounter := 0 }

/-- `RenderStats::as_text` (`src/lib.rs:1301`). -/
def RenderStats.asText (s : RenderStats) : String :=
  "fps: " ++ toString s.framesPerSec ++
    "\nrequest time: " ++ toString s.lastDrawRequestTime ++
    " us\npool creation time:" ++ toString s.lastDrawPoolCreationTime ++
    "\nelements:" ++ toString s.lastDrawPoolElements ++
    "\nvertices:" ++ toString s.lastDrawPoolVertices

/-- `RenderStats::stop_draw_request_timer` (`src/lib.rs:1274`); `micros` is
the elapsed time measured by the dropped `Instant`. -/
def RenderStats.stopDrawRequestTimer (s : RenderStats) (micros : ℕ) : RenderStats :=
  if s.turnedOff then s else { s with lastDrawRequestTime := micros }

/-- `RenderStats::stop_pool_creation_timer` (`src/lib.rs:1292`). -/
def RenderStats.stopPoolCreationTimer (s : RenderStats) (micros : ℕ) : RenderStats :=
  if s.turnedOff then s else { s with lastDrawPoolCreationTime := micros }

/-! ## Camera (`src/camera.rs`)

Only the state observable through the claims is tracked: the world position
(read by `text`/`shape`) and the cached projection size (compared against the
window size by `update_projection`; the cached `f32` sizes are exact images
of the `u32` window dimensions). The view/projection matrices are opaque
functions of these fields and are not modelled. -/

/-- `Camera` (`src/camera.rs:5`): position plus the cached
`ProjectionParams` width/height. -/
structure Camera where
  posX : ℚ
  posY : ℚ
  posZ : ℚ
  projWidth : ℕ
  projHeight : ℕ
deriving Repr

/-- `Camera::update_projection` (`src/camera.rs:51`): recompute (here:
re-cache) only when the window size changed. -/
def Camera.updateProjection (c : Camera) (winW winH : ℕ) : Camera :=
  if c.projWidth = winW ∧ c.projHeight = winH then c
  else { c with projWidth := winW, projHeight := winH }

/-! ## Renderer state (`src/lib.rs:37`)

Vulkan handles are opaque tokens (`ℕ`).  The per-frame vectors
(`fences_inflight`, `semaphores_acquire`, `semaphores_release`,
`draw_command_buffers`, `descriptor_sets`, `uniform_buffers_mapped`,
`uniform_buffers_mem_req`) all have length `MAX_FRAMES_INFLIGHT` by
construction in `Renderer::new`, so their shared bounds check is
`current_frame < MAX_FRAMES_INFLIGHT`.  `recorded` is the content of the
frame's command buffer after `draw_from_pool`: the sequence of instances
whose indexed draw calls were recorded and submitted. -/

/-- The renderer state observable through the claims (`src/lib.rs:37`). -/
structure Renderer where
  currentFrame : ℕ
  camera : Camera
  drawPool : List ObjectInstance
  swapchain : ℕ
  imageViews : List ℕ
  frameBuffers : List ℕ
  viewport : ℚ × ℚ
  scissor : ℕ × ℕ
  poolObjects : ℕ
  poolVertices : ℕ
  renderStats : RenderStats
  recorded : List ObjectInstance
deriving Repr

/-- `Renderer::MAX_FRAMES_INFLIGHT` (`src/lib.rs:98`). -/
def Renderer.MAX_FRAMES_INFLIGHT : ℕ := 2

/-- `Renderer::text` (`src/lib.rs:748`): extends the draw pool with the glyph
instances; `none` models the glyph-table panic. -/
def Renderer.text (r : Renderer) (s : String) (scale : ℚ) (topLeft : ℚ × ℚ)
    (anchorType : AnchorType) : Option Renderer :=
  (textModel (r.camera.posX, r.camera.posY) (utf8Bytes s) scale topLeft
      anchorType).map
    fun instances => { r with drawPool := r.drawPool ++ instances }

/-- `Renderer::shape` (`src/lib.rs:808`): pushes one instance (the Rust
function returns `Result` but has no failure path). -/
def Renderer.shape (r : Renderer) (sizeX sizeY rotation : ℚ)
    (center : ℚ × ℚ) (color : Color) (shape : ShapeType)
    (anchorType : AnchorType) : Renderer :=
  { r with
    drawPool := r.drawPool ++
      [shapeInstance (r.camera.posX, r.camera.posY) sizeX sizeY rotation
        center color shape anchorType] }

/-- `Renderer::update_render_stats` (`src/lib.rs:850`); `fpsWindowElapsed`
tells whether the fps `Instant` shows at least one elapsed second. -/
def Renderer.updateRenderStats (r : Renderer) (fpsWindowElapsed : Bool) :
    Renderer :=
  if r.renderStats.turnedOff then r
  else
    let s1 :=
      if fpsWindowElapsed then
        { r.renderStats with
          framesPerSec := r.renderStats.frameCounter
          frameCounter := 0 }
      else { r.renderStats with frameCounter := r.renderStats.frameCounter + 1 }
    let s2 :=
      if s1.lastDrawPoolElements ≠ r.drawPool.length then
        { s1 with lastDrawPoolElements := r.drawPool.length }
      else s1
    let s3 :=
      if s2.lastDrawPoolVertices ≠ r.poolVertices then
        { s2 with lastDrawPoolVertices := r.poolVertices }
      else s2
    { r with renderStats := s3 }

/-- `Renderer::draw_from_pool` (`src/lib.rs:701`): records one push-constant
plus one indexed draw call per pooled instance; `none` models the panic of
`self.object_pool.pool[draw_instance.object_index]` when an instance's mesh
index is out of bounds. The recorded command sequence is in pool order. -/
def drawFromPool (poolObjects : ℕ) (instances : List ObjectInstance) :
    Option (List ObjectInstance) :=
  if instances.all fun inst => inst.objectIndex < poolObjects then
    some instances
  else none

/-! ## Vulkan outcome oracles

Each fallible Vulkan API call either succeeds (possibly returning data) or
fails; the oracle fixes the outcome of every call a single renderer
operation makes. -/

/-- Outcomes of the Vulkan calls made by one `draw_request`. -/
structure VkDrawOutcome where
  waitFencesOk : Bool
  resetFencesOk : Bool
  acquiredImage : Option ℕ
  resetCommandBufferOk : Bool
  beginCommandBufferOk : Bool
  endCommandBufferOk : Bool
  submitOk : Bool
  presentOk : Bool
  fpsWindowElapsed : Bool
  drawRequestMicros : ℕ
  poolCreationMicros : ℕ

/-- The state after all fallible steps of a non-minimized `draw_request`
succeeded (`src/lib.rs:623-692`): stop the pool-creation timer, cache the
recorded commands, update the camera projection, advance the frame slot,
stop the draw-request timer, update the statistics, clear the draw pool. -/
def drawSuccessState (vk : VkDrawOutcome) (winW winH : ℕ) (r1 : Renderer)
    (recorded : List ObjectInstance) : Renderer :=
  let r2 := { r1 with
    renderStats := r1.renderStats.stopPoolCreationTimer vk.poolCreationMicros }
  let r3 := { r2 with
    camera := r2.camera.updateProjection winW winH
    recorded := recorded }
  let r4 := { r3 with
    currentFrame := (r3.currentFrame + 1) % Renderer.MAX_FRAMES_INFLIGHT }
  let r5 := { r4 with
    renderStats := r4.renderStats.stopDrawRequestTimer vk.drawRequestMicros }
  let r6 := r5.updateRenderStats vk.fpsWindowElapsed
  { r6 with drawPool := [] }

/-- `Renderer::draw_request` (`src/lib.rs:494`).  The early return for a
minimized window, the statistics-text draw, the shared
`current_frame < MAX_FRAMES_INFLIGHT` bounds check of the per-frame vectors,
the fallible Vulkan calls in source order, the `frame_buffers[image_index]`
bounds check, and the command recording of `draw_from_pool` are modelled; a
success ends in `drawSuccessState`. -/
def drawRequest (vk : VkDrawOutcome) (winW winH : ℕ) (r : Renderer) :
    Except String Renderer :=
  -- window minimized -> no draw
  if winH = 0 ∨ winW = 0 then .ok r
  else
    match r.text r.renderStats.asText 1
        (WorldPos2D.from_xy (winW : ℚ) (winH : ℚ) 5 5) .locked with
    | none => .error "character object pool: index out of bounds"
    | some r1 =>
      if r.currentFrame < Renderer.MAX_FRAMES_INFLIGHT then
        if vk.waitFencesOk = false then .error "wait_for_fences" else
        if vk.resetFencesOk = false then .error "reset_fences" else
        match vk.acquiredImage with
        | none => .error "acquire_next_image"
        | some imageIndex =>
          if vk.resetCommandBufferOk = false then .error "reset_command_buffer" else
          if vk.beginCommandBufferOk = false then .error "begin_command_buffer" else
          if imageIndex < r1.frameBuffers.length then
            match drawFromPool r1.poolObjects r1.drawPool with
            | none => .error "object pool: index out of bounds"
            | some recorded =>
              if vk.endCommandBufferOk = false then .error "end_command_buffer" else
              if vk.submitOk = false then .error "queue_submit" else
              if vk.presentOk = false then .error "queue_present" else
              .ok (drawSuccessState vk winW winH r1 recorded)
          else .error "Frame Buffer: Index out of bounds"
      else .error "Inflight Fence: Index out of bounds"

/-- A sequence of `draw_request` calls, each with its own window size and
Vulkan outcomes, stopping at the first error. -/
def runDrawRequests : List (VkDrawOutcome × ℕ × ℕ) → Renderer →
    Except String Renderer
  | [], r => .ok r
  | (vk, w, h) :: rest, r =>
    match drawRequest vk w h r with
    | .error e => .error e
    | .ok r1 => runDrawRequests rest r1

/-- The number of calls in a sequence whose window has both dimensions
non-zero (the calls that actually draw). -/
def liveCalls : List (VkDrawOutcome × ℕ × ℕ) → ℕ
  | [] => 0
  | (_, w, h) :: rest => (if h = 0 ∨ w = 0 then 0 else 1) + liveCalls rest

/-! ## Swapchain recreation (`src/lib.rs:376`) -/

/-- The surface capabilities `recreate_swapchain` queries. -/
structure VkSurfaceCaps where
  minImageCount : ℕ
  maxImageCount : ℕ

/-- Outcomes of the Vulkan calls made by one `recreate_swapchain`. -/
structure VkRecreateOutcome where
  waitIdleOk : Bool
  surfaceCaps : Option VkSurfaceCaps
  createSwapchain : ℕ → Option ℕ
  swapchainImages : Option (List ℕ)
  createImageViewsOk : Bool
  createFramebuffersOk : Bool

/-- `Renderer::recreate_swapchain` (`src/lib.rs:376`): no-op when either
dimension of `new_size` is zero; otherwise waits for device idle, destroys
the old swapchain/views/framebuffers, updates viewport/scissor, and creates
the new swapchain, one image view per swapchain image and one framebuffer
per image view. (On an error the partially-updated state is abandoned
together with the renderer, as in the Rust caller.) -/
def recreateSwapchain (vk : VkRecreateOutcome) (newW newH : ℕ) (r : Renderer) :
    Except String Renderer :=
  -- window minimized -> no recreation
  if newH = 0 ∨ newW = 0 then .ok r
  else
    if vk.waitIdleOk = false then .error "device_wait_idle" else
    match vk.surfaceCaps with
    | none => .error "get_physical_device_surface_capabilities"
    | some caps =>
      let count := caps.minImageCount + 1
      let minImageCount :=
        if 0 < caps.maxImageCount ∧ caps.maxImageCount < count then
          caps.maxImageCount
        else count
      match vk.createSwapchain minImageCount with
      | none => .error "create_swapchain"
      | some handle =>
        match vk.swapchainImages with
        | none => .error "get_swapchain_images"
        | some images =>
          if vk.createImageViewsOk = false then .error "create_image_view" else
          if vk.createFramebuffersOk = false then .error "create_framebuffer" else
          .ok { r with
                viewport := ((newW : ℚ), (newH : ℚ))
                scissor := (newW, newH)
                swapchain := handle
                imageViews := images
                frameBuffers := images }

/-! ## Object pool loader (`src/resources.rs:79`)

`load_obj_files` is modelled over already-lexed `.obj` lines: an `o` line
carrying the object name, a `v` line carrying a parsed vertex, an `f` line
carrying the three face values as parsed by `value.parse::<u16>()` (hence
`< 65536`; a value outside `u16` or a face value `0`, whose `- 1`
underflows, is a load failure, modelled by `none`), or any other line. -/

/-- One lexed line of an `.obj` file. -/
inductive ObjLine where
  | object (name : String)
  | vertex (x y z : ℚ)
  | face (a b c : ℕ)
  | other
deriving Repr

/-- `ObjectData` (`src/resources.rs:31`). -/
structure ObjectData where
  name : String
  indexCount : ℕ
  indexOffset : ℕ
deriving DecidableEq, Repr

/-- `ObjectPool` (`src/resources.rs:9`), with vertices as positions. -/
structure ObjectPool where
  indices : List ℕ
  vertices : List Vec3
  pool : List ObjectData
deriving Repr

/-- The mutable local state of the `load_obj_files` loop
(`src/resources.rs:84-91`). -/
structure LoadState where
  vertices : List Vec3
  indices : List ℕ
  pool : List ObjectData
  objectIndexOffset : ℕ
  objectData : ObjectData
deriving Repr

/-- One face value pushed to the index buffer (`src/resources.rs:144-145`):
`object_index_offset as u16 + (value - 1)`, with `u16` wrap-around. `none`
models the `u16` parse failure (`v ≥ 65536`) and the `0 - 1` underflow. -/
def faceIndexValue (offset v : ℕ) : Option ℕ :=
  if 1 ≤ v ∧ v < 65536 then some ((offset % 65536 + (v - 1)) % 65536)
  else none

/-- Processing of one line in `load_obj_files` (`src/resources.rs:99-152`). -/
def processLine (s : LoadState) : ObjLine → Option LoadState
  | .object name =>
    -- first object -> skip save
    if s.objectData.name = "" then
      some { s with objectData := { s.objectData with name := name } }
    else
      some { s with
        pool := s.pool ++ [s.objectData]
        objectData :=
          { name := name
            indexOffset := s.objectData.indexOffset + s.objectData.indexCount
            indexCount := 0 } }
  | .vertex x y z => some { s with vertices := s.vertices ++ [⟨x, y, z⟩] }
  | .face a b c =>
    match faceIndexValue s.objectIndexOffset a,
        faceIndexValue s.objectIndexOffset b,
        faceIndexValue s.objectIndexOffset c with
    | some ia, some ib, some ic =>
      some { s with
        indices := s.indices ++ [ia, ib, ic]
        objectData :=
          { s.objectData with indexCount := s.objectData.indexCount + 3 } }
    | _, _, _ => none
  | .other => some s

/-- All lines of one file, in order. -/
def processLines : List ObjLine → LoadState → Option LoadState
  | [], s => some s
  | line :: rest, s => (processLine s line).bind (processLines rest)

/-- All files in order; after each file the running index offset is set to
the vertex count so far (`src/resources.rs:155`). -/
def processFiles : List (List ObjLine) → LoadState → Option LoadState
  | [], s => some s
  | f :: rest, s =>
    (processLines f s).bind fun s1 =>
      processFiles rest { s1 with objectIndexOffset := s1.vertices.length }

/-- The initial loader state (`src/resources.rs:84-91`). -/
def initLoadState : LoadState :=
  { vertices := [], indices := [], pool := [], objectIndexOffset := 0,
    objectData := { name := "", indexCount := 0, indexOffset := 0 } }

/-- `load_obj_files` (`src/resources.rs:79`), over lexed file contents; the
last open object is saved at the end (`src/resources.rs:159`). -/
def load_obj_files (files : List (List ObjLine)) : Option ObjectPool :=
  (processFiles files initLoadState).map fun s =>
    { indices := s.indices, vertices := s.vertices,
      pool := s.pool ++ [s.objectData] }

/-- The file-local zero-based indices contributed by the face lines of one
file, in order. -/
def fileLocalIndices : List ObjLine → List ℕ
  | [] => []
  | .face a b c :: rest => [a - 1, b - 1, c - 1] ++ fileLocalIndices rest
  | _ :: rest => fileLocalIndices rest

/-- The number of vertices one file contributes. -/
def fileVertexCount : List ObjLine → ℕ
  | [] => 0
  | .vertex _ _ _ :: rest => 1 + fileVertexCount rest
  | _ :: rest => fileVertexCount rest

/-- Every face value of the file parses as a non-zero `u16`. -/
def faceBoundsOk : ObjLine → Bool
  | .face a b c =>
    decide (1 ≤ a) && decide (a < 65536) && decide (1 ≤ b) &&
      decide (b < 65536) && decide (1 ≤ c) && decide (c < 65536)
  | _ => true

/-- Every face line of the file has valid face values. -/
def facesValid (f : List ObjLine) : Bool := f.all faceBoundsOk

/-! ## Concrete fixtures for the witnesses -/

/-- A camera at the origin, as built by `Renderer::new` for an `8 × 6`
window. -/
def camera0 : Camera :=
  { posX := 0, posY := 0, posZ := 2, projWidth := 8, projHeight := 6 }

/-- A freshly constructed renderer for an `8 × 6` window with a 3-image
swapchain and the 58-object pool of `preload()`. -/
def renderer0 : Renderer :=
  { currentFrame := 0
    camera := camera0
    drawPool := []
    swapchain := 0
    imageViews := [10, 11, 12]
    frameBuffers := [20, 21, 22]
    viewport := (8, 6)
    scissor := (8, 6)
    poolObjects := 58
    poolVertices := 0
    renderStats := RenderStats.new
    recorded := [] }

/-- A queued circle instance. -/
def sampleInstance : ObjectInstance :=
  { position := ⟨1, 2, 0⟩, rotation := 0, scale := ⟨1, 1, 0⟩,
    color := Color.black, objectIndex := ObjectPool.CIRCLE }

/-- `renderer0` with one queued instance. -/
def rendererQueued : Renderer := { renderer0 with drawPool := [sampleInstance] }

/-- All Vulkan draw calls succeed; image 0 is acquired. -/
def vkDrawOk : VkDrawOutcome :=
  { waitFencesOk := true, resetFencesOk := true, acquiredImage := some 0,
    resetCommandBufferOk := true, beginCommandBufferOk := true,
    endCommandBufferOk := true, submitOk := true, presentOk := true,
    fpsWindowElapsed := false, drawRequestMicros := 0, poolCreationMicros := 0 }

/-- All Vulkan recreation calls succeed. -/
def vkRecreateOk : VkRecreateOutcome :=
  { waitIdleOk := true, surfaceCaps := some { minImageCount := 2, maxImageCount := 4 },
    createSwapchain := fun _ => some 7, swapchainImages := some [30, 31, 32],
    createImageViewsOk := true, createFramebuffersOk := true }

/-- The result of one successful `draw_request` on `renderer0`. -/
def afterOneDraw : Renderer :=
  match drawRequest vkDrawOk 8 6 renderer0 with
  | .ok r => r
  | .error _ => renderer0


/-- A lexed triangle mesh file (three vertices, one face, 1-based indices). -/
def demoFile1 : List ObjLine :=
  [.object "TriA", .vertex 0 0 0, .vertex 1 0 0, .vertex 0 1 0, .face 1 2 3]

/-- A second lexed triangle mesh file whose face indices restart at 1. -/
def demoFile2 : List ObjLine :=
  [.object "TriB", .vertex 0 0 0, .vertex 2 0 0, .vertex 0 2 0, .face 1 2 3]

/-! ## Theorems -/

/-- The world extents are positive for a window with positive dimensions. -/
lemma world_pos {w h : ℚ} (hw : 0 < w) (hh : 0 < h) :
    0 < (world w h).1 ∧ 0 < (world w h).2 := by
  unfold world
  split
  · exact ⟨div_pos hw hh, one_pos⟩
  · exact ⟨one_pos, div_pos hh hw⟩

/-- Screen → world → screen is the identity map (exactly, over `ℚ`). -/
lemma screen_world_screen_exact {w h : ℚ} (hw : 0 < w) (hh : 0 < h)
    (x y : ℚ) :
    ScreenPos2D.from_world_pos w h (WorldPos2D.from_xy w h x y) = (x, y) := by
  obtain ⟨hr, ht⟩ := world_pos hw hh
  have hwr : (world w h).1 ≠ 0 := ne_of_gt hr
  have hwt : (world w h).2 ≠ 0 := ne_of_gt ht
  have hw0 : w ≠ 0 := ne_of_gt hw
  have hh0 : h ≠ 0 := ne_of_gt hh
  unfold ScreenPos2D.from_world_pos ScreenPos2D.convert WorldPos2D.from_xy
    WorldPos2D.convert
  dsimp only
  rw [Prod.mk.injEq]
  constructor
  · field_simp
    ring
  · have hden : h * (-(world w h).2 - (world w h).2) ≠ 0 := by
      refine mul_ne_zero hh0 ?_
      intro h0
      have : (world w h).2 = 0 := by linarith
      exact hwt this
    field_simp
    ring

/-- C1: for every window size `(w,h)` with `w > 0` and `h > 0` and every screen
point `(x,y)` in `[0,w] × [0,h]`, converting screen → world
(`WorldPos2D::from_xy`) and back (`ScreenPos2D::from_world_pos`) returns
`(x,y)` within `1e-4` absolute tolerance (in fact exactly, modelling `f32`
arithmetic by exact rationals). -/
theorem coord_roundtrip_within_tolerance (w h x y : ℚ)
    (hw : 0 < w) (hh : 0 < h)
    (_hx0 : 0 ≤ x) (_hxw : x ≤ w) (_hy0 : 0 ≤ y) (_hyh : y ≤ h) :
    |(ScreenPos2D.from_world_pos w h (WorldPos2D.from_xy w h x y)).1 - x| ≤ 1 / 10000 ∧
    |(ScreenPos2D.from_world_pos w h (WorldPos2D.from_xy w h x y)).2 - y| ≤ 1 / 10000 := by
  rw [screen_world_screen_exact hw hh x y]
  norm_num

/-- Witness for C1 at the window `800 × 600` and the screen point `(5, 7)`. -/
theorem coord_roundtrip_within_tolerance_witness :
    (0 < (800 : ℚ) ∧ 0 < (600 : ℚ) ∧ 0 ≤ (5 : ℚ) ∧ (5 : ℚ) ≤ 800 ∧
      0 ≤ (7 : ℚ) ∧ (7 : ℚ) ≤ 600) ∧
    (|(ScreenPos2D.from_world_pos 800 600 (WorldPos2D.from_xy 800 600 5 7)).1 - 5| ≤ 1 / 10000 ∧
      |(ScreenPos2D.from_world_pos 800 600 (WorldPos2D.from_xy 800 600 5 7)).2 - 7| ≤ 1 / 10000) :=
  ⟨by norm_num,
    coord_roundtrip_within_tolerance 800 600 5 7 (by norm_num) (by norm_num)
      (by norm_num) (by norm_num) (by norm_num) (by norm_num)⟩

/-- C3 counterexample: at window `800 × 600` (width > height) the left screen
edge maps to world X `= -4/3`, not `-1` as the claim states. -/
theorem worldPos_left_edge_cex :
    (WorldPos2D.convert 800 600 0 0).1 = -(4 / 3) ∧
      ¬ (WorldPos2D.convert 800 600 0 0).1 = -1 := by
  have hworld : world 800 600 = (800 / 600, 1) := by
    unfold world
    rw [if_pos (by norm_num : (800 : ℚ) > 600)]
  unfold WorldPos2D.convert
  rw [hworld]
  norm_num

/-- C3 (amended): for a window with `width > height > 0`, the left and right
screen edges map to world X `= -width/height` and `+width/height` (the larger
dimension spans a proportionally larger range than `[-1,1]`), while the top
and bottom edges map to world Y `= +1` and `-1` (the smaller dimension spans
exactly `[-1,1]`). -/
theorem worldPos_edges_wide_window (w h x y : ℚ) (hh : 0 < h) (hwh : h < w) :
    (WorldPos2D.convert w h 0 y).1 = -(w / h) ∧
    (WorldPos2D.convert w h w y).1 = w / h ∧
    (WorldPos2D.convert w h x 0).2 = 1 ∧
    (WorldPos2D.convert w h x h).2 = -1 := by
  have hw : 0 < w := lt_trans hh hwh
  have hw0 : w ≠ 0 := ne_of_gt hw
  have hh0 : h ≠ 0 := ne_of_gt hh
  have hworld : world w h = (w / h, 1) := by
    unfold world
    rw [if_pos hwh]
  unfold WorldPos2D.convert
  rw [hworld]
  dsimp only
  refine ⟨by rw [zero_div, zero_mul, add_zero], ?_, by rw [zero_div, zero_mul, add_zero], ?_⟩
  · rw [div_self hw0]
    ring
  · rw [div_self hh0]
    ring

/-- Witness for C3's amended theorem at window `800 × 600`, screen point
`(9, 5)`. -/
theorem worldPos_edges_wide_window_witness :
    (0 < (600 : ℚ) ∧ (600 : ℚ) < 800) ∧
    ((WorldPos2D.convert 800 600 0 5).1 = -(800 / 600) ∧
      (WorldPos2D.convert 800 600 800 5).1 = 800 / 600 ∧
      (WorldPos2D.convert 800 600 9 0).2 = 1 ∧
      (WorldPos2D.convert 800 600 9 600).2 = -1) :=
  ⟨by norm_num, worldPos_edges_wide_window 800 600 9 5 (by norm_num) (by norm_num)⟩


/-! ### Frame lifecycle lemmas -/

/-- `update_render_stats` only touches the statistics: the frame slot is
unchanged. -/
lemma updateRenderStats_currentFrame (r : Renderer) (b : Bool) :
    (r.updateRenderStats b).currentFrame = r.currentFrame := by
  unfold Renderer.updateRenderStats
  split <;> rfl

/-- `update_render_stats` leaves the recorded command sequence unchanged. -/
lemma updateRenderStats_recorded (r : Renderer) (b : Bool) :
    (r.updateRenderStats b).recorded = r.recorded := by
  unfold Renderer.updateRenderStats
  split <;> rfl

/-- The draw pool is empty after a successful frame. -/
lemma drawSuccessState_drawPool (vk : VkDrawOutcome) (winW winH : ℕ)
    (r1 : Renderer) (rec : List ObjectInstance) :
    (drawSuccessState vk winW winH r1 rec).drawPool = [] := rfl

/-- A successful frame advances the slot index by one modulo
`MAX_FRAMES_INFLIGHT`. -/
lemma drawSuccessState_currentFrame (vk : VkDrawOutcome) (winW winH : ℕ)
    (r1 : Renderer) (rec : List ObjectInstance) :
    (drawSuccessState vk winW winH r1 rec).currentFrame =
      (r1.currentFrame + 1) % Renderer.MAX_FRAMES_INFLIGHT := by
  unfold drawSuccessState
  rw [updateRenderStats_currentFrame]

/-- A successful frame stores the recorded command sequence. -/
lemma drawSuccessState_recorded (vk : VkDrawOutcome) (winW winH : ℕ)
    (r1 : Renderer) (rec : List ObjectInstance) :
    (drawSuccessState vk winW winH r1 rec).recorded = rec := by
  unfold drawSuccessState
  rw [updateRenderStats_recorded]

/-- Inversion of a successful `Renderer::text`. -/
lemma text_some_inv {r r' : Renderer} {s : String} {scale : ℚ}
    {tl : ℚ × ℚ} {a : AnchorType}
    (h : Renderer.text r s scale tl a = some r') :
    ∃ l, textModel (r.camera.posX, r.camera.posY) (utf8Bytes s) scale tl a =
        some l ∧
      r' = { r with drawPool := r.drawPool ++ l } := by
  unfold Renderer.text at h
  rcases htm : textModel (r.camera.posX, r.camera.posY) (utf8Bytes s) scale
      tl a with _ | l
  · rw [htm] at h
    exact Option.noConfusion h
  · rw [htm] at h
    refine ⟨l, rfl, ?_⟩
    simpa using h.symm

/-- `draw_from_pool` records exactly the pooled instances when it does not
panic. -/
lemma drawFromPool_some {n : ℕ} {l l' : List ObjectInstance}
    (h : drawFromPool n l = some l') : l' = l := by
  unfold drawFromPool at h
  split at h
  · injection h with h
    exact h.symm
  · exact Option.noConfusion h

/-- Inversion of a successful non-minimized `draw_request`: the statistics
text was appended to the pool, and the final state is `drawSuccessState` of
the extended pool, whose instances were all recorded. -/
lemma drawRequest_ok_live {vk : VkDrawOutcome} {winW winH : ℕ}
    {r r' : Renderer} (hmin : ¬(winH = 0 ∨ winW = 0))
    (h : drawRequest vk winW winH r = Except.ok r') :
    ∃ stats,
      textModel (r.camera.posX, r.camera.posY)
          (utf8Bytes r.renderStats.asText) 1
          (WorldPos2D.from_xy (winW : ℚ) (winH : ℚ) 5 5) AnchorType.locked =
        some stats ∧
      r' = drawSuccessState vk winW winH
          { r with drawPool := r.drawPool ++ stats } (r.drawPool ++ stats) := by
  unfold drawRequest at h
  rw [if_neg hmin] at h
  split at h
  · exact Except.noConfusion h
  next r1 htext =>
    obtain ⟨stats, htm, hr1⟩ := text_some_inv htext
    subst hr1
    refine ⟨stats, htm, ?_⟩
    split at h
    next hcf =>
      split at h
      next => exact Except.noConfusion h
      next =>
        split at h
        next => exact Except.noConfusion h
        next =>
          split at h
          next => exact Except.noConfusion h
          next imageIndex hacq =>
            split at h
            next => exact Except.noConfusion h
            next =>
              split at h
              next => exact Except.noConfusion h
              next =>
                split at h
                next hib =>
                  split at h
                  next hrec => exact Except.noConfusion h
                  next rec hrec =>
                    split at h
                    next => exact Except.noConfusion h
                    next =>
                      split at h
                      next => exact Except.noConfusion h
                      next =>
                        split at h
                        next => exact Except.noConfusion h
                        next =>
                          injection h with h
                          rw [← h, drawFromPool_some hrec]
                next => exact Except.noConfusion h
    next hcf => exact Except.noConfusion h

/-- A minimized `draw_request` returns its input state unchanged. -/
lemma drawRequest_ok_minimized {vk : VkDrawOutcome} {winW winH : ℕ}
    {r r' : Renderer} (hmin : winH = 0 ∨ winW = 0)
    (h : drawRequest vk winW winH r = Except.ok r') : r' = r := by
  unfold drawRequest at h
  rw [if_pos hmin] at h
  injection h with h
  exact h.symm

/-- C2 counterexample: with a queued instance and a zero-width window,
`draw_request` returns `Ok` while the draw pool stays non-empty. -/
theorem draw_pool_lifecycle_cex :
    drawRequest vkDrawOk 0 100 rendererQueued = Except.ok rendererQueued ∧
      ¬ rendererQueued.drawPool = [] :=
  ⟨rfl, by simp [rendererQueued]⟩

/-- C2 (amended): when `draw_request` returns `Ok` for a window with both
dimensions non-zero, the draw pool is empty; for a minimized window (zero
width or height) the call is a no-op returning `Ok` with the whole state —
including the draw pool — unchanged. -/
theorem draw_pool_lifecycle_amended (vk : VkDrawOutcome) (winW winH : ℕ)
    (r r' : Renderer) (h : drawRequest vk winW winH r = Except.ok r') :
    ((winH = 0 ∨ winW = 0) → r' = r) ∧
    (¬(winH = 0 ∨ winW = 0) → r'.drawPool = []) := by
  by_cases hmin : winH = 0 ∨ winW = 0
  · exact ⟨fun _ => drawRequest_ok_minimized hmin h, fun hc => absurd hmin hc⟩
  · refine ⟨fun hc => absurd hc hmin, fun _ => ?_⟩
    obtain ⟨stats, _, hr'⟩ := drawRequest_ok_live hmin h
    rw [hr', drawSuccessState_drawPool]

/-- Witness for C2's amended theorem: one successful live draw on a fresh
renderer. -/
theorem draw_pool_lifecycle_amended_witness :
    drawRequest vkDrawOk 8 6 renderer0 = Except.ok afterOneDraw ∧
    ¬ ((6 : ℕ) = 0 ∨ (8 : ℕ) = 0) ∧
    afterOneDraw.drawPool = [] :=
  ⟨rfl, by decide,
    (draw_pool_lifecycle_amended vkDrawOk 8 6 renderer0 afterOneDraw rfl).2
      (by decide)⟩

/-- A successful sequence of `draw_request` calls advances the frame slot
once per non-minimized call, modulo `MAX_FRAMES_INFLIGHT` = 2. -/
lemma runDrawRequests_currentFrame (calls : List (VkDrawOutcome × ℕ × ℕ)) :
    ∀ r r' : Renderer, r.currentFrame < 2 →
      runDrawRequests calls r = Except.ok r' →
      r'.currentFrame = (r.currentFrame + liveCalls calls) % 2 := by
  induction calls with
  | nil =>
    intro r r' hcf h
    injection h with h
    subst h
    simp [liveCalls, Nat.mod_eq_of_lt hcf]
  | cons c rest ih =>
    intro r r' hcf h
    obtain ⟨vk, w, ht⟩ := c
    unfold runDrawRequests at h
    rcases hd : drawRequest vk w ht r with e | r1
    · rw [hd] at h
      exact Except.noConfusion h
    · rw [hd] at h
      by_cases hmin : ht = 0 ∨ w = 0
      · have hr1 : r1 = r := drawRequest_ok_minimized hmin hd
        subst hr1
        have := ih r1 r' hcf h
        rw [this]
        simp only [liveCalls]
        rw [if_pos hmin]
        omega
      · obtain ⟨stats, _, hr1⟩ := drawRequest_ok_live hmin hd
        have hcf1 : r1.currentFrame = (r.currentFrame + 1) % 2 := by
          rw [hr1, drawSuccessState_currentFrame]
          rfl
        have hlt : r1.currentFrame < 2 := by
          rw [hcf1]
          exact Nat.mod_lt _ (by norm_num)
        have := ih r1 r' hlt h
        rw [this, hcf1]
        simp only [liveCalls]
        rw [if_neg hmin]
        omega

/-- C4 counterexample: one `draw_request` with a zero-width window returns
`Ok` (the claim's `k = 1`) yet leaves the frame slot at 0, not `1 mod 2`. -/
theorem frame_slot_rotation_cex :
    drawRequest vkDrawOk 0 6 renderer0 = Except.ok renderer0 ∧
    renderer0.currentFrame = 0 ∧ ¬ (0 : ℕ) = 1 % 2 :=
  ⟨rfl, rfl, by decide⟩

/-- C4 (amended): starting from a renderer whose frame-slot index is 0, after
a sequence of `draw_request` calls that all return `Ok`, the slot index
equals `m mod 2` where `m` counts only the calls whose window had both
dimensions non-zero; minimized-window calls return `Ok` without advancing
the slot. -/
theorem frame_slot_rotation_amended (calls : List (VkDrawOutcome × ℕ × ℕ))
    (r r' : Renderer) (h0 : r.currentFrame = 0)
    (h : runDrawRequests calls r = Except.ok r') :
    r'.currentFrame = liveCalls calls % 2 := by
  have := runDrawRequests_currentFrame calls r r' (by rw [h0]; norm_num) h
  rw [h0] at this
  simpa using this

/-- Witness for C4's amended theorem: a minimized call followed by a live
call, ending at slot `1 = liveCalls mod 2`. -/
theorem frame_slot_rotation_amended_witness :
    renderer0.currentFrame = 0 ∧
    runDrawRequests [(vkDrawOk, 0, 6), (vkDrawOk, 8, 6)] renderer0 =
      Except.ok afterOneDraw ∧
    afterOneDraw.currentFrame =
      liveCalls [(vkDrawOk, 0, 6), (vkDrawOk, 8, 6)] % 2 :=
  ⟨rfl, rfl,
    frame_slot_rotation_amended [(vkDrawOk, 0, 6), (vkDrawOk, 8, 6)]
      renderer0 afterOneDraw rfl rfl⟩

/-- C5: `recreate_swapchain` with a zero width or height returns success and
leaves the whole renderer state — in particular the swapchain handle, image
views, framebuffers, viewport and scissor — unchanged. -/
theorem resize_noop_zero (vk : VkRecreateOutcome) (newW newH : ℕ)
    (r : Renderer) (hmin : newH = 0 ∨ newW = 0) :
    recreateSwapchain vk newW newH r = Except.ok r ∧
    (recreateSwapchain vk newW newH r).map Renderer.swapchain =
      Except.ok r.swapchain ∧
    (recreateSwapchain vk newW newH r).map Renderer.imageViews =
      Except.ok r.imageViews ∧
    (recreateSwapchain vk newW newH r).map Renderer.frameBuffers =
      Except.ok r.frameBuffers ∧
    (recreateSwapchain vk newW newH r).map Renderer.viewport =
      Except.ok r.viewport ∧
    (recreateSwapchain vk newW newH r).map Renderer.scissor =
      Except.ok r.scissor := by
  have h : recreateSwapchain vk newW newH r = Except.ok r := by
    unfold recreateSwapchain
    rw [if_pos hmin]
  exact ⟨h, by rw [h]; rfl, by rw [h]; rfl, by rw [h]; rfl, by rw [h]; rfl,
    by rw [h]; rfl⟩

/-- Witness for C5 at `new_size = (5, 0)` on a renderer with a queued
instance. -/
theorem resize_noop_zero_witness :
    ((0 : ℕ) = 0 ∨ (5 : ℕ) = 0) ∧
    recreateSwapchain vkRecreateOk 5 0 rendererQueued =
      Except.ok rendererQueued :=
  ⟨by decide,
    (resize_noop_zero vkRecreateOk 5 0 rendererQueued (by decide)).1⟩

/-- C10: on a successful `draw_request` with a non-minimized window, the
renderer first appends the glyph instances of its own statistics text (drawn
`Locked` at the world image of screen point `(5,5)`) to the draw pool, so
the command sequence recorded and submitted for the frame is the queued
instances followed by the statistics glyphs. -/
theorem draw_records_queued_then_stats (vk : VkDrawOutcome) (winW winH : ℕ)
    (r r' : Renderer) (hmin : ¬(winH = 0 ∨ winW = 0))
    (h : drawRequest vk winW winH r = Except.ok r') :
    ∃ stats,
      textModel (r.camera.posX, r.camera.posY)
          (utf8Bytes r.renderStats.asText) 1
          (WorldPos2D.from_xy (winW : ℚ) (winH : ℚ) 5 5) AnchorType.locked =
        some stats ∧
      r'.recorded = r.drawPool ++ stats := by
  obtain ⟨stats, htm, hr'⟩ := drawRequest_ok_live hmin h
  exact ⟨stats, htm, by rw [hr', drawSuccessState_recorded]⟩

/-- Witness for C10: one successful live draw on a fresh renderer. -/
theorem draw_records_queued_then_stats_witness :
    ¬ ((6 : ℕ) = 0 ∨ (8 : ℕ) = 0) ∧
    drawRequest vkDrawOk 8 6 renderer0 = Except.ok afterOneDraw ∧
    (∃ stats,
      textModel (renderer0.camera.posX, renderer0.camera.posY)
          (utf8Bytes renderer0.renderStats.asText) 1
          (WorldPos2D.from_xy ((8 : ℕ) : ℚ) ((6 : ℕ) : ℚ) 5 5)
          AnchorType.locked =
        some stats ∧
      afterOneDraw.recorded = renderer0.drawPool ++ stats) :=
  ⟨by decide, rfl,
    draw_records_queued_then_stats vkDrawOk 8 6 renderer0 afterOneDraw
      (by decide) rfl⟩

/-! ### Glyph table lookups used by the layout proofs -/

/-- Byte 65 (`'A'`) maps to glyph object 26. -/
lemma charObjectPool_get_A : charObjectPool[(65 : ℕ)]? = some 26 := by decide

/-- Byte 10 (`'\n'`) maps to the new-line sentinel 253. -/
lemma charObjectPool_get_LF : charObjectPool[(10 : ℕ)]? = some 253 := by decide

/-- Byte 66 (`'B'`) maps to glyph object 27. -/
lemma charObjectPool_get_B : charObjectPool[(66 : ℕ)]? = some 27 := by decide

/-- The UTF-8 bytes of `"A\nB"`. -/
lemma utf8Bytes_AnB : utf8Bytes "A\nB" = [65, 10, 66] := by decide

/-- The cursor loop on the bytes of `"A\nB"`: glyph 26 at the cursor, then a
new line (X reset to the anchor X, Y lowered by `padY`), then glyph 27. -/
lemma textLoop_AnB (aX pX pY s : ℚ) (cur : Vec3) :
    textLoop aX pX pY s [65, 10, 66] cur = some
      [{ position := cur, rotation := 0, scale := ⟨s, s, 0⟩,
         color := Color.emerald, objectIndex := 26 },
       { position := ⟨aX, cur.y - pY, cur.z⟩, rotation := 0,
         scale := ⟨s, s, 0⟩, color := Color.emerald, objectIndex := 27 }] := by
  simp [textLoop, charObjectPool_get_A, charObjectPool_get_LF,
    charObjectPool_get_B]

/-- C6: `text` on `"A\nB"` at any scale appends exactly two draw instances,
one for `'A'` (glyph 26) and one for `'B'` (glyph 27); the second instance's
Y is lower by `scale * 0.05` than the first's and its X equals the first's
(the anchor's X). -/
theorem text_newline_layout (r : Renderer) (scale : ℚ) (topLeft : ℚ × ℚ)
    (anchorType : AnchorType) :
    ∃ i1 i2 : ObjectInstance,
      Renderer.text r "A\nB" scale topLeft anchorType =
        some { r with drawPool := r.drawPool ++ [i1, i2] } ∧
      i1.objectIndex = 26 ∧ i2.objectIndex = 27 ∧
      i2.position.y = i1.position.y - scale * (5 / 100) ∧
      i2.position.x = i1.position.x := by
  cases anchorType with
  | locked =>
    refine ⟨
      { position := ⟨topLeft.1 + r.camera.posX + scale * (3 / 100),
                     topLeft.2 + r.camera.posY - scale * (5 / 100), 0⟩
        rotation := 0, scale := ⟨scale, scale, 0⟩, color := Color.emerald,
        objectIndex := 26 },
      { position := ⟨topLeft.1 + r.camera.posX + scale * (3 / 100),
                     topLeft.2 + r.camera.posY - scale * (5 / 100) -
                       scale * (5 / 100), 0⟩
        rotation := 0, scale := ⟨scale, scale, 0⟩, color := Color.emerald,
        objectIndex := 27 },
      ?_, rfl, rfl, rfl, rfl⟩
    unfold Renderer.text textModel
    rw [utf8Bytes_AnB]
    dsimp only
    rw [textLoop_AnB]
    rfl
  | unlocked =>
    refine ⟨
      { position := ⟨topLeft.1 + scale * (3 / 100),
                     topLeft.2 - scale * (5 / 100), 0⟩
        rotation := 0, scale := ⟨scale, scale, 0⟩, color := Color.emerald,
        objectIndex := 26 },
      { position := ⟨topLeft.1 + scale * (3 / 100),
                     topLeft.2 - scale * (5 / 100) - scale * (5 / 100), 0⟩
        rotation := 0, scale := ⟨scale, scale, 0⟩, color := Color.emerald,
        objectIndex := 27 },
      ?_, rfl, rfl, rfl, rfl⟩
    unfold Renderer.text textModel
    rw [utf8Bytes_AnB]
    dsimp only
    rw [textLoop_AnB]
    rfl

/-- C7: `shape` appends exactly one instance, resolves the shape kind to its
fixed mesh index, and positions it at `center + cameraPos` for a `Locked`
anchor and at `center` verbatim for an `Unlocked` anchor. -/
theorem shape_anchor_semantics (r : Renderer) (sizeX sizeY rotation : ℚ)
    (center : ℚ × ℚ) (color : Color) (st : ShapeType) :
    ((r.shape sizeX sizeY rotation center color st AnchorType.locked).drawPool =
      r.drawPool ++
        [shapeInstance (r.camera.posX, r.camera.posY) sizeX sizeY rotation
          center color st AnchorType.locked]) ∧
    ((r.shape sizeX sizeY rotation center color st AnchorType.unlocked).drawPool =
      r.drawPool ++
        [shapeInstance (r.camera.posX, r.camera.posY) sizeX sizeY rotation
          center color st AnchorType.unlocked]) ∧
    (shapeInstance (r.camera.posX, r.camera.posY) sizeX sizeY rotation
        center color st AnchorType.locked).position =
      ⟨center.1 + r.camera.posX, center.2 + r.camera.posY, 0⟩ ∧
    (shapeInstance (r.camera.posX, r.camera.posY) sizeX sizeY rotation
        center color st AnchorType.unlocked).position =
      ⟨center.1, center.2, 0⟩ ∧
    ∀ a : AnchorType,
      (shapeInstance (r.camera.posX, r.camera.posY) sizeX sizeY rotation
        center color st a).objectIndex = shapeObjectIndex st :=
  ⟨rfl, rfl, rfl, rfl, fun _ => rfl⟩


/-! ### Object-pool loader lemmas -/

/-- The local indices of a file split off the head line. -/
lemma fileLocalIndices_cons (l : ObjLine) (rest : List ObjLine) :
    fileLocalIndices (l :: rest) =
      fileLocalIndices [l] ++ fileLocalIndices rest := by
  cases l <;> simp [fileLocalIndices]

/-- The vertex count of a file splits off the head line. -/
lemma fileVertexCount_cons (l : ObjLine) (rest : List ObjLine) :
    fileVertexCount (l :: rest) =
      fileVertexCount [l] + fileVertexCount rest := by
  cases l <;> simp [fileVertexCount]

/-- `facesValid` splits off the head line. -/
lemma facesValid_cons {l : ObjLine} {f : List ObjLine}
    (h : facesValid (l :: f) = true) :
    faceBoundsOk l = true ∧ facesValid f = true := by
  simpa [facesValid, List.all_cons, Bool.and_eq_true] using h

/-- Valid face values give local indices below `u16` range. -/
lemma fileLocalIndices_lt {f : List ObjLine} (hf : facesValid f = true) :
    ∀ i ∈ fileLocalIndices f, i < 65535 := by
  induction f with
  | nil => simp [fileLocalIndices]
  | cons l rest ih =>
    obtain ⟨hl, hrest⟩ := facesValid_cons hf
    intro i hi
    rw [fileLocalIndices_cons] at hi
    rcases List.mem_append.mp hi with hi | hi
    · cases l with
      | face a b c =>
        simp only [faceBoundsOk, Bool.and_eq_true, decide_eq_true_eq] at hl
        simp only [fileLocalIndices, List.append_nil, List.mem_cons,
          List.not_mem_nil, or_false] at hi
        omega
      | object name => simp [fileLocalIndices] at hi
      | vertex x y z => simp [fileLocalIndices] at hi
      | other => simp [fileLocalIndices] at hi
    · exact ih hrest i hi

/-- One line of the loader: success, the contributed indices, the vertex
count, and offset preservation. -/
lemma processLine_spec (s : LoadState) (l : ObjLine)
    (hl : faceBoundsOk l = true)
    (hidx : ∀ i ∈ fileLocalIndices [l],
      s.objectIndexOffset % 65536 + i < 65536) :
    ∃ s1, processLine s l = some s1 ∧
      s1.indices = s.indices ++
        (fileLocalIndices [l]).map (fun i => s.objectIndexOffset % 65536 + i) ∧
      s1.vertices.length = s.vertices.length + fileVertexCount [l] ∧
      s1.objectIndexOffset = s.objectIndexOffset := by
  cases l with
  | object name =>
    by_cases hname : s.objectData.name = ""
    · exact ⟨{ s with objectData := { s.objectData with name := name } },
        by simp only [processLine, if_pos hname],
        by simp [fileLocalIndices],
        by simp [fileVertexCount], rfl⟩
    · exact ⟨{ s with
          pool := s.pool ++ [s.objectData]
          objectData :=
            { name := name
              indexOffset := s.objectData.indexOffset + s.objectData.indexCount
              indexCount := 0 } },
        by simp only [processLine, if_neg hname],
        by simp [fileLocalIndices],
        by simp [fileVertexCount], rfl⟩
  | vertex x y z =>
    exact ⟨{ s with vertices := s.vertices ++ [⟨x, y, z⟩] },
      by simp only [processLine],
      by simp [fileLocalIndices],
      by simp [fileVertexCount], rfl⟩
  | face a b c =>
    simp only [faceBoundsOk, Bool.and_eq_true, decide_eq_true_eq] at hl
    simp only [fileLocalIndices, List.append_nil, List.mem_cons,
      List.not_mem_nil, or_false] at hidx
    have hval : ∀ v : ℕ, 1 ≤ v → v < 65536 →
        s.objectIndexOffset % 65536 + (v - 1) < 65536 →
        faceIndexValue s.objectIndexOffset v =
          some (s.objectIndexOffset % 65536 + (v - 1)) := by
      intro v h1 h2 h3
      unfold faceIndexValue
      rw [if_pos ⟨h1, h2⟩, Nat.mod_eq_of_lt h3]
    obtain ⟨⟨⟨⟨⟨ha1, ha2⟩, hb1⟩, hb2⟩, hc1⟩, hc2⟩ := hl
    have ha := hval a ha1 ha2 (hidx _ (Or.inl rfl))
    have hb := hval b hb1 hb2 (hidx _ (Or.inr (Or.inl rfl)))
    have hc := hval c hc1 hc2 (hidx _ (Or.inr (Or.inr rfl)))
    exact ⟨{ s with
        indices := s.indices ++
          [s.objectIndexOffset % 65536 + (a - 1),
           s.objectIndexOffset % 65536 + (b - 1),
           s.objectIndexOffset % 65536 + (c - 1)]
        objectData :=
          { s.objectData with indexCount := s.objectData.indexCount + 3 } },
      by simp only [processLine, ha, hb, hc],
      by simp [fileLocalIndices],
      by simp [fileVertexCount], rfl⟩
  | other =>
    exact ⟨s, by simp only [processLine],
      by simp [fileLocalIndices],
      by simp [fileVertexCount], rfl⟩

/-- One whole file of the loader. -/
lemma processLines_spec (f : List ObjLine) :
    ∀ s : LoadState, facesValid f = true →
    (∀ i ∈ fileLocalIndices f, s.objectIndexOffset % 65536 + i < 65536) →
    ∃ s', processLines f s = some s' ∧
      s'.indices = s.indices ++
        (fileLocalIndices f).map (fun i => s.objectIndexOffset % 65536 + i) ∧
      s'.vertices.length = s.vertices.length + fileVertexCount f ∧
      s'.objectIndexOffset = s.objectIndexOffset := by
  induction f with
  | nil =>
    intro s _ _
    exact ⟨s, rfl, by simp [fileLocalIndices], by simp [fileVertexCount], rfl⟩
  | cons l rest ih =>
    intro s hv hidx
    obtain ⟨hl, hrest⟩ := facesValid_cons hv
    obtain ⟨s1, hs1, hI1, hV1, hO1⟩ := processLine_spec s l hl
      (fun i hi => hidx i (by
        rw [fileLocalIndices_cons]
        exact List.mem_append_left _ hi))
    obtain ⟨s', hrun, hI, hV, hO⟩ := ih s1 hrest (fun i hi => by
      rw [hO1]
      exact hidx i (by
        rw [fileLocalIndices_cons]
        exact List.mem_append_right _ hi))
    refine ⟨s', ?_, ?_, ?_, ?_⟩
    · simp only [processLines, hs1, Option.some_bind]
      exact hrun
    · rw [hI, hI1, hO1, fileLocalIndices_cons l rest, List.map_append,
        List.append_assoc]
    · rw [hV, hV1, fileVertexCount_cons l rest]
      omega
    · rw [hO, hO1]

/-- C8: loading two lexed mesh files in sequence, each with 1-based face
values in `u16` range and with the second file's rebased indices fitting in
`u16`, succeeds and produces a global index buffer in which every index the
second file contributes equals the first file's total vertex count plus the
file-local zero-based index. -/
theorem mesh_offset_rebasing (f1 f2 : List ObjLine)
    (h1 : facesValid f1 = true) (h2 : facesValid f2 = true)
    (hvc : fileVertexCount f1 < 65536)
    (hb : ∀ i ∈ fileLocalIndices f2, fileVertexCount f1 + i < 65536) :
    ∃ p : ObjectPool, load_obj_files [f1, f2] = some p ∧
      p.indices = fileLocalIndices f1 ++
        (fileLocalIndices f2).map (fun i => fileVertexCount f1 + i) := by
  obtain ⟨s1, hrun1, hI1, hV1, hO1⟩ := processLines_spec f1 initLoadState h1
    (fun i hi => by
      have := fileLocalIndices_lt h1 i hi
      simp only [initLoadState]
      omega)
  have hlen1 : s1.vertices.length = fileVertexCount f1 := by
    rw [hV1]
    simp [initLoadState]
  obtain ⟨s2, hrun2, hI2, hV2, hO2⟩ := processLines_spec f2
    { s1 with objectIndexOffset := s1.vertices.length } h2
    (fun i hi => by
      have := hb i hi
      simp only [hlen1, Nat.mod_eq_of_lt hvc]
      omega)
  refine ⟨{ indices := s2.indices, vertices := s2.vertices,
            pool := s2.pool ++ [s2.objectData] }, ?_, ?_⟩
  · unfold load_obj_files
    simp only [processFiles, hrun1, Option.some_bind, hrun2]
    rfl
  · show s2.indices = _
    rw [hI2]
    show s1.indices ++
        (fileLocalIndices f2).map
          (fun i => s1.vertices.length % 65536 + i) = _
    rw [hI1, hlen1, Nat.mod_eq_of_lt hvc]
    simp [initLoadState]

/-- Witness for C8 on two concrete triangle files: the second triangle's
1-based indices `[1,2,3]` land at `[3,4,5]` after the first file's three
vertices. -/
theorem mesh_offset_rebasing_witness :
    (facesValid demoFile1 = true ∧ facesValid demoFile2 = true ∧
      fileVertexCount demoFile1 < 65536 ∧
      ∀ i ∈ fileLocalIndices demoFile2,
        fileVertexCount demoFile1 + i < 65536) ∧
    (∃ p : ObjectPool, load_obj_files [demoFile1, demoFile2] = some p ∧
      p.indices = fileLocalIndices demoFile1 ++
        (fileLocalIndices demoFile2).map
          (fun i => fileVertexCount demoFile1 + i)) :=
  ⟨⟨by decide, by decide, by decide, by decide⟩,
    mesh_offset_rebasing demoFile1 demoFile2 (by decide) (by decide)
      (by decide) (by decide)⟩

/-! ### Glyph-table safety lemmas -/

/-- The glyph table has 255 entries (`CHAR_OBJECT_POOL: [u8; 255]`). -/
lemma charObjectPool_length : charObjectPool.length = 255 := by decide

/-- Unicode scalar values are below `0x110000`. -/
lemma char_toNat_lt (c : Char) : c.toNat < 1114112 := by
  have h := c.valid
  unfold UInt32.isValidChar Nat.isValidChar at h
  rcases h with h | ⟨_, h⟩
  · exact lt_trans h (by norm_num)
  · exact h

/-- Every UTF-8 byte of a valid scalar value is at most `0xF4 < 255`. -/
lemma utf8EncodeChar_lt {c : ℕ} (hc : c < 1114112) :
    ∀ b ∈ utf8EncodeChar c, b < 255 := by
  intro b hb
  by_cases h1 : c < 128
  · simp [utf8EncodeChar, h1] at hb
    omega
  · by_cases h2 : c < 2048
    · simp [utf8EncodeChar, h1, h2] at hb
      rcases hb with rfl | rfl <;> omega
    · by_cases h3 : c < 65536
      · simp [utf8EncodeChar, h1, h2, h3] at hb
        rcases hb with rfl | rfl | rfl <;> omega
      · simp [utf8EncodeChar, h1, h2, h3] at hb
        rcases hb with rfl | rfl | rfl | rfl <;> omega

/-- Every byte of a string's UTF-8 encoding is below the table length. -/
lemma utf8Bytes_lt (s : String) : ∀ b ∈ utf8Bytes s, b < 255 := by
  intro b hb
  unfold utf8Bytes at hb
  simp only [List.mem_flatten, List.mem_map] at hb
  obtain ⟨l, ⟨ch, _, rfl⟩, hbl⟩ := hb
  exact utf8EncodeChar_lt (char_toNat_lt ch) b hbl

/-- The cursor loop never panics on bytes below the table length. -/
lemma textLoop_total {bytes : List ℕ} (hb : ∀ b ∈ bytes, b < 255) :
    ∀ (aX pX pY scale : ℚ) (cur : Vec3),
      (textLoop aX pX pY scale bytes cur).isSome = true := by
  induction bytes with
  | nil =>
    intro aX pX pY scale cur
    rfl
  | cons b rest ih =>
    intro aX pX pY scale cur
    have hrest : ∀ x ∈ rest, x < 255 :=
      fun x hx => hb x (List.mem_cons_of_mem _ hx)
    rcases hg : charObjectPool.get? b with _ | ci
    · exfalso
      have hnone := List.get?_eq_none.mp hg
      have hblt := hb b (List.mem_cons_self _ _)
      rw [charObjectPool_length] at hnone
      omega
    · simp only [textLoop, hg]
      by_cases h255 : ci = 255
      · rw [if_pos h255]
        exact ih hrest aX pX pY scale cur
      · rw [if_neg h255]
        by_cases h253 : ci = 253
        · rw [if_pos h253]
          exact ih hrest aX pX pY scale _
        · rw [if_neg h253]
          obtain ⟨l, hl⟩ := Option.isSome_iff_exists.mp
            (ih hrest aX pX pY scale ⟨cur.x + pX, cur.y, cur.z⟩)
          rw [hl]
          rfl

/-- A byte mapped to the skip sentinel 255 leaves the cursor loop's output
unchanged wherever it occurs. -/
lemma textLoop_skip {b : ℕ} (hb : charObjectPool.get? b = some 255) :
    ∀ (pre post : List ℕ) (aX pX pY scale : ℚ) (cur : Vec3),
      textLoop aX pX pY scale (pre ++ b :: post) cur =
        textLoop aX pX pY scale (pre ++ post) cur := by
  intro pre
  induction pre with
  | nil =>
    intro post aX pX pY scale cur
    simp only [List.nil_append, textLoop, hb]
    rw [if_true]
  | cons p pre ih =>
    intro post aX pX pY scale cur
    simp only [List.cons_append]
    rcases hg : charObjectPool.get? p with _ | ci
    · simp only [textLoop, hg]
    · simp only [textLoop, hg]
      by_cases h255 : ci = 255
      · simp [h255, ih]
      · by_cases h253 : ci = 253
        · simp [h255, h253, ih]
        · simp [h255, h253, ih]

/-- C9 counterexample: the glyph table has 255 entries, not 256 — the source
declares `CHAR_OBJECT_POOL: [u8; 255]` (index 255 is missing, although the
table's own comment says entries run to 255). -/
theorem glyph_table_size_cex :
    charObjectPool.length = 255 ∧ ¬ charObjectPool.length = 256 := by
  constructor
  · decide
  · decide

/-- C9 (amended): `text` looks every byte of a string up in the fixed
255-entry glyph table without failure — every byte a UTF-8 string can
contain is below the table length, so the lookup is always in bounds — and
bytes mapped to the skip sentinel 255 (all non-ASCII and unmapped bytes) are
silently skipped, leaving the produced instances unchanged. -/
theorem text_glyph_lookup_safe :
    (∀ (s : String) (cameraPos : ℚ × ℚ) (scale : ℚ) (topLeft : ℚ × ℚ)
        (a : AnchorType),
      (textModel cameraPos (utf8Bytes s) scale topLeft a).isSome = true) ∧
    (∀ (cameraPos : ℚ × ℚ) (scale : ℚ) (topLeft : ℚ × ℚ) (a : AnchorType)
        (pre post : List ℕ) (b : ℕ), charObjectPool.get? b = some 255 →
      textModel cameraPos (pre ++ b :: post) scale topLeft a =
        textModel cameraPos (pre ++ post) scale topLeft a) := by
  constructor
  · intro s cam scale tl a
    exact textLoop_total (utf8Bytes_lt s) _ _ _ _ _
  · intro cam scale tl a pre post b hb
    exact textLoop_skip hb pre post _ _ _ _ _

/-- Witness for C9's amended theorem: the two-byte letter `"Ω"` (bytes
`[206, 169]`, both mapped to the skip sentinel) is processed without
failure, and inserting the skip byte 206 into `[65, 66]` changes nothing. -/
theorem text_glyph_lookup_safe_witness :
    (textModel (0, 0) (utf8Bytes "Ω") 1 (0, 0) AnchorType.unlocked).isSome =
      true ∧
    charObjectPool.get? 206 = some 255 ∧
    textModel (0, 0) ([65] ++ 206 :: [66]) 1 (0, 0) AnchorType.unlocked =
      textModel (0, 0) ([65] ++ [66]) 1 (0, 0) AnchorType.unlocked :=
  ⟨text_glyph_lookup_safe.1 "Ω" (0, 0) 1 (0, 0) AnchorType.unlocked,
    by decide,
    text_glyph_lookup_safe.2 (0, 0) 1 (0, 0) AnchorType.unlocked [65] [66]
      206 (by decide)⟩
